import Mathlib

/-!
Verification of the GateHub client (`packages/wallet/backend/src/gatehub/client.ts`).

The TypeScript class `GateHubClient` is shallowly embedded here:

* pure computations (the canonical signing string, header assembly, rate
  flattening, URL construction) become Lean functions translated line by line
  from the source;
* the HTTP transport (axios) is an external black box, so every workflow
  method takes the provider's response(s) as explicit oracle arguments and
  returns the ordered list of transport calls it issued together with its
  `Except` result, mirroring the `await`/`throw` control flow;
* JavaScript string truthiness (`if (body)`, `x && { ... }`) is modelled
  explicitly: an optional string is truthy exactly when it is present and
  nonempty;
* `crypto.createHmac('sha256', key).update(msg).digest('hex')` is modelled by
  a full executable HMAC-SHA256 over UTF-8 bytes with lowercase hex output.
-/

set_option maxHeartbeats 1000000

namespace GateHub

/-! ### SHA-256 and HMAC
Model of Node's `createHmac('sha256', key).update(toSign).digest('hex')`
(FIPS 180-4 SHA-256 and RFC 2104 HMAC), over bytes as `Nat` values `< 256`
and 32-bit words as `Nat` values reduced mod `2 ^ 32`. -/

def mask32 (x : Nat) : Nat := x % 4294967296

def rotr (n x : Nat) : Nat := mask32 ((x >>> n) ||| (x <<< (32 - n)))

def bigSigma0 (x : Nat) : Nat := rotr 2 x ^^^ rotr 13 x ^^^ rotr 22 x

def bigSigma1 (x : Nat) : Nat := rotr 6 x ^^^ rotr 11 x ^^^ rotr 25 x

def smallSigma0 (x : Nat) : Nat := rotr 7 x ^^^ rotr 18 x ^^^ (x >>> 3)

def smallSigma1 (x : Nat) : Nat := rotr 17 x ^^^ rotr 19 x ^^^ (x >>> 10)

def shaK : List Nat :=
  [1116352408, 1899447441, 3049323471, 3921009573, 961987163,
   1508970993, 2453635748, 2870763221, 3624381080, 310598401,
   607225278, 1426881987, 1925078388, 2162078206, 2614888103,
   3248222580, 3835390401, 4022224774, 264347078, 604807628,
   770255983, 1249150122, 1555081692, 1996064986, 2554220882,
   2821834349, 2952996808, 3210313671, 3336571891, 3584528711,
   113926993, 338241895, 666307205, 773529912, 1294757372,
   1396182291, 1695183700, 1986661051, 2177026350, 2456956037,
   2730485921, 2820302411, 3259730800, 3345764771, 3516065817,
   3600352804, 4094571909, 275423344, 430227734, 506948616,
   659060556, 883997877, 958139571, 1322822218, 1537002063,
   1747873779, 1955562222, 2024104815, 2227730452, 2361852424,
   2428436474, 2756734187, 3204031479, 3329325298]

def shaH0 : List Nat :=
  [1779033703, 3144134277, 1013904242, 2773480762,
   1359893119, 2600822924, 528734635, 1541459225]

def bytesToWords : List Nat → List Nat
  | a :: b :: c :: d :: rest => (((a * 256 + b) * 256 + c) * 256 + d) :: bytesToWords rest
  | _ => []

def wordBytes (w : Nat) : List Nat :=
  [w / 16777216 % 256, w / 65536 % 256, w / 256 % 256, w % 256]

def schedule (ws : List Nat) : List Nat :=
  (List.range 48).foldl
    (fun acc i =>
      acc ++ [mask32 (acc.getD i 0 + smallSigma0 (acc.getD (i + 1) 0) +
        acc.getD (i + 9) 0 + smallSigma1 (acc.getD (i + 14) 0))])
    ws

def compressStep (st : List Nat) (kw : Nat × Nat) : List Nat :=
  match st with
  | [a, b, c, d, e, f, g, h] =>
    let t1 := mask32 (h + bigSigma1 e + ((e &&& f) ^^^ ((e ^^^ 4294967295) &&& g)) +
      kw.1 + kw.2)
    let t2 := mask32 (bigSigma0 a + ((a &&& b) ^^^ (a &&& c) ^^^ (b &&& c)))
    [mask32 (t1 + t2), a, b, c, mask32 (d + t1), e, f, g]
  | other => other

def compressBlock (H : List Nat) (block : List Nat) : List Nat :=
  let W := schedule (bytesToWords block)
  let st := (shaK.zip W).foldl compressStep H
  List.zipWith (fun x y => mask32 (x + y)) H st

def padMessage (msg : List Nat) : List Nat :=
  let z := (120 - ((msg.length + 1) % 64)) % 64
  let L := msg.length * 8
  msg ++ [128] ++ List.replicate z 0 ++
    [L / 2 ^ 56 % 256, L / 2 ^ 48 % 256, L / 2 ^ 40 % 256, L / 2 ^ 32 % 256,
     L / 2 ^ 24 % 256, L / 2 ^ 16 % 256, L / 2 ^ 8 % 256, L % 256]

def chunksAux : Nat → List Nat → List (List Nat)
  | 0, _ => []
  | _, [] => []
  | Nat.succ fuel, l => l.take 64 :: chunksAux fuel (l.drop 64)

def sha256 (msg : List Nat) : List Nat :=
  let padded := padMessage msg
  (chunksAux padded.length padded).foldl compressBlock shaH0 |>.flatMap wordBytes

def utf8Bytes (s : String) : List Nat := s.toUTF8.toList.map (fun b => b.toNat)

def hexChar (n : Nat) : Char :=
  if n < 10 then Char.ofNat (48 + n) else Char.ofNat (87 + n)

def bytesToHex (bytes : List Nat) : String :=
  String.mk (bytes.flatMap (fun b => [hexChar (b / 16), hexChar (b % 16)]))

def hmacSha256Hex (key msg : String) : String :=
  let kb := utf8Bytes key
  let k0 := if kb.length > 64 then sha256 kb else kb
  let kp := k0 ++ List.replicate (64 - k0.length) 0
  bytesToHex (sha256 ((kp.map (fun b => b ^^^ 0x5c)) ++
    sha256 ((kp.map (fun b => b ^^^ 0x36)) ++ utf8Bytes msg)))

/-! ### JavaScript string truthiness -/

/-- JavaScript truthiness of an optional string (`string | undefined`):
truthy exactly when present and nonempty. -/
def strTruthy : Option String → Bool
  | some s => s != ""
  | none => false

/-- Evaluates a conditional spread / truthiness guard on an optional string:
returns the string exactly when it is truthy (present and nonempty). -/
def optTruthy : Option String → Option String
  | some s => if s = "" then none else some s
  | none => none

/-! ### JavaScript number coercion -/

/-- A JavaScript number resulting from `ToNumber`: either NaN or an exact
rational value. -/
inductive JSNumber where
  | nan
  | num (q : Rat)
  deriving DecidableEq

def digitsToNat (cs : List Char) : Nat :=
  cs.foldl (fun acc c => 10 * acc + (c.toNat - 48)) 0

/-- Models the JavaScript unary plus (`+rateObj.rate`) coercion for plain
decimal numerals: the empty string coerces to 0, an optionally signed decimal
numeral (with optional fractional part) coerces to its exact rational value,
and anything else is NaN. Exponent forms and whitespace padding are outside
the scope of this model; no theorem below depends on them. -/
def jsToNumber (s : String) : JSNumber :=
  let cs := s.toList
  if cs.isEmpty then JSNumber.num 0
  else
    let signSplit : Bool × List Char :=
      match cs with
      | '-' :: rest => (true, rest)
      | '+' :: rest => (false, rest)
      | rest => (false, rest)
    let neg := signSplit.1
    let ds := signSplit.2
    let ip := ds.takeWhile Char.isDigit
    let rest := ds.dropWhile Char.isDigit
    let build : List Char → JSNumber := fun fp =>
      let mag : Rat := (digitsToNat ip : Rat) + (digitsToNat fp : Rat) / ((10 : Rat) ^ fp.length)
      JSNumber.num (if neg then -mag else mag)
    match rest with
    | [] => if ip.isEmpty then JSNumber.nan else build []
    | '.' :: fp =>
      if fp.all Char.isDigit && !(ip.isEmpty && fp.isEmpty) then build fp else JSNumber.nan
    | _ => JSNumber.nan

/-! ### Constants (`@/gatehub/consts`, `@/config/env`, shared types)

The module `@/gatehub/consts` and the shared `IFRAME_TYPE` declaration are not
under `src/`; only `client.ts` (their caller) is. The definitions below are
therefore modelled from the spec, and every theorem that does not depend on
the concrete constant values quantifies over them instead. -/

/-- The client-identifier set: a mapping from purpose to an opaque client
identifier string (spec section 3, ClientIdentitySet). -/
structure ClientIds where
  onOffRamp : String
  exchange : String
  onboarding : String
  deriving DecidableEq

/-- Modelled from the spec: the sandbox `ClientIdentitySet`; the concrete
identifier strings are not in `src/`, so representative placeholders are
used — no theorem depends on their values. -/
def SANDBOX_CLIENT_IDS : ClientIds :=
  ⟨"sandbox-on-off-ramp-client-id", "sandbox-exchange-client-id",
   "sandbox-onboarding-client-id"⟩

/-- Modelled from the spec: the production `ClientIdentitySet`; placeholders
as for `SANDBOX_CLIENT_IDS`. -/
def PRODUCTION_CLIENT_IDS : ClientIds :=
  ⟨"production-on-off-ramp-client-id", "production-exchange-client-id",
   "production-onboarding-client-id"⟩

/-- Modelled from the spec: the default application scope shared by the
deposit, withdrawal and exchange iframes. -/
def DEFAULT_APP_SCOPE : List String := ["default_app_scope"]

/-- Modelled from the spec: the distinct application scope of the onboarding
iframe. -/
def ONBOARDING_APP_SCOPE : List String := ["onboarding_app_scope"]

/-- The payment-type query-parameter values of the single ramp endpoint. -/
structure PaymentTypeConsts where
  deposit : String
  withdrawal : String
  deriving DecidableEq

/-- Modelled from the spec: `paymentType=<deposit|withdrawal>` (spec section
6, iframe embed URLs). -/
def PAYMENT_TYPE : PaymentTypeConsts := ⟨"deposit", "withdrawal"⟩

/-- The pre-validated read-only configuration struct (`Env`). -/
structure Env where
  NODE_ENV : String
  GATEHUB_ACCESS_KEY : String
  GATEHUB_SECRET_KEY : String
  GATEHUB_CARD_APP_ID : String
  deriving DecidableEq

/-! ### The client -/

/-- The state of a constructed `GateHubClient`: the environment plus the two
fields the constructor selects from it (`clientIds`, `mainUrl`). -/
structure GateHubClient where
  env : Env
  clientIds : ClientIds
  mainUrl : String
  deriving DecidableEq

/-- The constructor: starts from the sandbox defaults and swaps in the
production client ids and host when `NODE_ENV === 'production'`. -/
def mkGateHubClient (env : Env) : GateHubClient :=
  if env.NODE_ENV == "production" then ⟨env, PRODUCTION_CLIENT_IDS, "gatehub.net"⟩
  else ⟨env, SANDBOX_CLIENT_IDS, "sandbox.gatehub.net"⟩

def GateHubClient.isProduction (c : GateHubClient) : Bool :=
  c.env.NODE_ENV == "production"

def GateHubClient.apiUrl (c : GateHubClient) : String :=
  "https://api." ++ c.mainUrl

def GateHubClient.rampUrl (c : GateHubClient) : String :=
  "https://managed-ramp." ++ c.mainUrl

def GateHubClient.exchangeUrl (c : GateHubClient) : String :=
  "https://exchange." ++ c.mainUrl

def GateHubClient.onboardingUrl (c : GateHubClient) : String :=
  "https://onboarding." ++ c.mainUrl

/-! ### Request signing (`getSignature`) -/

/-- The canonical signing string of `getSignature`: `[timestamp, method, url]`
with the body pushed exactly when it is truthy (present and nonempty), joined
with the `|` delimiter (`args.join('|')`). -/
def toSign (timestamp method url : String) (body : Option String) : String :=
  let args := [timestamp, method, url] ++ (if strTruthy body then [body.getD ""] else [])
  String.intercalate "|" args

/-- `getSignature`: HMAC-SHA256 of the canonical signing string under the
configured secret key, hex encoded. -/
def GateHubClient.getSignature (c : GateHubClient)
    (timestamp method url : String) (body : Option String) : String :=
  hmacSha256Hex c.env.GATEHUB_SECRET_KEY (toSign timestamp method url body)

/-! ### Header assembly (`getRequestHeaders`) -/

/-- The optional `headersOptions` argument of `request` /
`getRequestHeaders`. -/
structure HeadersOptions where
  managedUserUuid : Option String
  token : Option String
  cardAppId : Option String
  deriving DecidableEq

/-- The absent `headersOptions` argument. -/
def noHeadersOptions : HeadersOptions := ⟨none, none, none⟩

/-- `getRequestHeaders`: the four unconditional headers followed by the three
conditionally spread headers, each spread exactly when its optional value is
truthy. -/
def GateHubClient.getRequestHeaders (c : GateHubClient)
    (timestamp method url : String) (body : Option String)
    (headersOptions : HeadersOptions) : List (String × String) :=
  [("Content-Type", "application/json"),
   ("x-gatehub-app-id", c.env.GATEHUB_ACCESS_KEY),
   ("x-gatehub-timestamp", timestamp),
   ("x-gatehub-signature", c.getSignature timestamp method url body)]
  ++ (match optTruthy headersOptions.managedUserUuid with
      | some u => [("x-gatehub-managed-user-uuid", u)]
      | none => [])
  ++ (match optTruthy headersOptions.cardAppId with
      | some i => [("x-gatehub-card-app-id", i)]
      | none => [])
  ++ (match optTruthy headersOptions.token with
      | some t => [("Authorization", "Bearer " ++ t)]
      | none => [])

/-- The headers actually assembled inside `request`, which passes
`body ?? ''` to `getRequestHeaders`. -/
def GateHubClient.requestHeaders (c : GateHubClient)
    (timestamp method url : String) (body : Option String)
    (headersOptions : HeadersOptions) : List (String × String) :=
  c.getRequestHeaders timestamp method url (some (body.getD "")) headersOptions

/-! ### Transport calls and errors -/

/-- One transport call issued through `request`: its method, url, optional
body, and the `headersOptions` forwarded to `getRequestHeaders`. -/
structure RequestCall where
  method : String
  url : String
  body : Option String
  headersOptions : HeadersOptions
  deriving DecidableEq

/-- The error taxonomy of the client (spec section 7): `badRequest` is the
`BadRequest` raised for an invalid iframe type, `protocolInvariant` is the
local `new Error(...)` raised when a required provider-response field is
missing (the spec's ProtocolInvariantError), `transport` is an axios failure
re-raised by `request`. -/
inductive GHError where
  | badRequest (msg : String)
  | protocolInvariant (msg : String)
  | transport (msg : String)
  deriving DecidableEq

/-- `ITokenResponse`: the token-issuance response. -/
structure TokenResponse where
  token : String
  deriving DecidableEq

/-- `ILinksResponse`: the card-data token response, whose `token` field may be
absent. -/
structure LinksResponse where
  token : Option String
  deriving DecidableEq

/-- Models `JSON.stringify` of the `ITokenRequest` body `{ scope }` for plain
scope strings (no characters needing JSON escaping, as is the case for the
scope constants). -/
def stringifyTokenRequest (scope : List String) : String :=
  "\x7b\"scope\":[" ++ String.intercalate "," (scope.map (fun s => "\"" ++ s ++ "\"")) ++
    "]\x7d"

/-- `IApproveUserToGatewayRequest`. -/
structure ApproveUserToGatewayRequest where
  verified : Nat
  reasons : List String
  customMessage : Bool
  deriving DecidableEq

/-- Models `JSON.stringify` of an `IApproveUserToGatewayRequest` for plain
reason strings. -/
def stringifyApproveRequest (r : ApproveUserToGatewayRequest) : String :=
  "\x7b\"verified\":" ++ toString r.verified ++ ",\"reasons\":[" ++
    String.intercalate "," (r.reasons.map (fun s => "\"" ++ s ++ "\"")) ++
    "],\"customMessage\":" ++ (if r.customMessage then "true" else "false") ++ "\x7d"

/-! ### Iframe authorization -/

/-- `getIframeAuthorizationToken`: one signed POST to the token-issuance
endpoint, with the scope list as body and the managed-user uuid header;
returns `response.token`. The provider's response is the oracle `resp`. -/
def GateHubClient.getIframeAuthorizationToken (c : GateHubClient)
    (clientId : String) (scope : List String) (managedUserUuid : String)
    (resp : Except GHError TokenResponse) :
    List RequestCall × Except GHError String :=
  let url := c.apiUrl ++ "/auth/v1/tokens?clientId=" ++ clientId
  let body := stringifyTokenRequest scope
  let call : RequestCall := ⟨"POST", url, some body, ⟨some managedUserUuid, none, none⟩⟩
  match resp with
  | Except.error e => ([call], Except.error e)
  | Except.ok r => ([call], Except.ok r.token)

def GateHubClient.getWithdrawalUrl (c : GateHubClient) (managedUserUuid : String)
    (resp : Except GHError TokenResponse) : List RequestCall × Except GHError String :=
  match c.getIframeAuthorizationToken c.clientIds.onOffRamp DEFAULT_APP_SCOPE
      managedUserUuid resp with
  | (calls, Except.ok token) =>
    (calls, Except.ok (c.rampUrl ++ "/?paymentType=" ++ PAYMENT_TYPE.withdrawal ++
      "&bearer=" ++ token))
  | (calls, Except.error e) => (calls, Except.error e)

def GateHubClient.getDepositUrl (c : GateHubClient) (managedUserUuid : String)
    (resp : Except GHError TokenResponse) : List RequestCall × Except GHError String :=
  match c.getIframeAuthorizationToken c.clientIds.onOffRamp DEFAULT_APP_SCOPE
      managedUserUuid resp with
  | (calls, Except.ok token) =>
    (calls, Except.ok (c.rampUrl ++ "/?paymentType=" ++ PAYMENT_TYPE.deposit ++
      "&bearer=" ++ token))
  | (calls, Except.error e) => (calls, Except.error e)

def GateHubClient.getOnboardingUrl (c : GateHubClient) (managedUserUuid : String)
    (resp : Except GHError TokenResponse) : List RequestCall × Except GHError String :=
  match c.getIframeAuthorizationToken c.clientIds.onboarding ONBOARDING_APP_SCOPE
      managedUserUuid resp with
  | (calls, Except.ok token) =>
    (calls, Except.ok (c.onboardingUrl ++ "/?bearer=" ++ token))
  | (calls, Except.error e) => (calls, Except.error e)

def GateHubClient.getExchangeUrl (c : GateHubClient) (managedUserUuid : String)
    (resp : Except GHError TokenResponse) : List RequestCall × Except GHError String :=
  match c.getIframeAuthorizationToken c.clientIds.exchange DEFAULT_APP_SCOPE
      managedUserUuid resp with
  | (calls, Except.ok token) =>
    (calls, Except.ok (c.exchangeUrl ++ "/?bearer=" ++ token))
  | (calls, Except.error e) => (calls, Except.error e)

/-- `getIframeUrl`: a runtime lookup in `iframeMappings`, a record keyed by
the four iframe kinds; any other key misses the record and raises
`BadRequest('Invalid iframe type')` with no transport call. The kind is a
string because the lookup is a JavaScript record access by string key. -/
def GateHubClient.getIframeUrl (c : GateHubClient) (kind managedUserUuid : String)
    (resp : Except GHError TokenResponse) : List RequestCall × Except GHError String :=
  if kind = "deposit" then c.getDepositUrl managedUserUuid resp
  else if kind = "withdrawal" then c.getWithdrawalUrl managedUserUuid resp
  else if kind = "exchange" then c.getExchangeUrl managedUserUuid resp
  else if kind = "onboarding" then c.getOnboardingUrl managedUserUuid resp
  else ([], Except.error (GHError.badRequest "Invalid iframe type"))

/-! ### Gateway connection -/

/-- `approveUserToGateway`: one signed PUT with the fixed body
`{ verified: 1, reasons: [], customMessage: false }` and no header options. -/
def GateHubClient.approveUserToGateway (c : GateHubClient)
    (userUuid gatewayUuid : String) (resp : Except GHError Unit) :
    List RequestCall × Except GHError Unit :=
  let url := c.apiUrl ++ "/id/v1/hubs/" ++ gatewayUuid ++ "/users/" ++ userUuid
  let body := stringifyApproveRequest ⟨1, [], false⟩
  ([⟨"PUT", url, some body, noHeadersOptions⟩], resp)

/-- `connectUserToGateway`: the connect POST (managed-user-uuid header, no
body); then, outside production only, the auto-approval PUT and `true`;
in production no approval and `false`. `rConnect` and `rApprove` are the
transport oracles for the two hops. -/
def GateHubClient.connectUserToGateway (c : GateHubClient)
    (managedUserUuid gatewayUuid : String)
    (rConnect rApprove : Except GHError Unit) :
    List RequestCall × Except GHError Bool :=
  let url := c.apiUrl ++ "/id/v1/users/" ++ managedUserUuid ++ "/hubs/" ++ gatewayUuid
  let call : RequestCall := ⟨"POST", url, none, ⟨some managedUserUuid, none, none⟩⟩
  match rConnect with
  | Except.error e => ([call], Except.error e)
  | Except.ok _ =>
    if !c.isProduction then
      match c.approveUserToGateway managedUserUuid gatewayUuid rApprove with
      | (acalls, Except.error e) => (call :: acalls, Except.error e)
      | (acalls, Except.ok _) => (call :: acalls, Except.ok true)
    else ([call], Except.ok false)

/-! ### Rates -/

/-- A value of the raw `IRatesResponse` at some asset code: either the string
sentinel the provider returns for unavailable pairs, or a rate object whose
`rate` field carries the provider's string representation of the rate. -/
inductive RateValue where
  | strVal (s : String)
  | rateObj (rate : String)
  deriving DecidableEq

/-- The raw rates response: a JavaScript object read only by key lookup. -/
abbrev RatesResponse := List (String × RateValue)

/-- `response[code]`: `undefined` (`none`) when the key is absent. -/
def lookupRate (resp : RatesResponse) (code : String) : Option RateValue :=
  (resp.find? (fun p => p.1 == code)).map (fun p => p.2)

/-- The flattening loop of `getRates`: for each supported asset code in order,
if `response[code]` is truthy and not a string, set `flatRates[code] = +rateObj.rate`.
(A rate object is always truthy; a string value is skipped by the `typeof`
test whether or not it is empty, so the guard is equivalent to the value
being a rate object.) -/
def getRatesFlatten (supportedAssetCodes : List String) (resp : RatesResponse) :
    List (String × JSNumber) :=
  match supportedAssetCodes with
  | [] => []
  | code :: rest =>
    match lookupRate resp code with
    | some (RateValue.rateObj rate) =>
      (code, jsToNumber rate) :: getRatesFlatten rest resp
    | _ => getRatesFlatten rest resp

/-- `getRates`: one signed GET to the rates endpoint, then the flattening of
the raw response over the supported asset codes. `SUPPORTED_ASSET_CODES`
lives in the consts module that is not under `src/`, so it is passed as a
parameter and the theorems quantify over it. -/
def GateHubClient.getRates (c : GateHubClient) (supportedAssetCodes : List String)
    (base : String) (resp : Except GHError RatesResponse) :
    List RequestCall × Except GHError (List (String × JSNumber)) :=
  let url := c.apiUrl ++ "/rates/v1/rates/current?counter=" ++ base ++ "&amount=1&useAll=true"
  let call : RequestCall := ⟨"GET", url, none, noHeadersOptions⟩
  match resp with
  | Except.error e => ([call], Except.error e)
  | Except.ok r => ([call], Except.ok (getRatesFlatten supportedAssetCodes r))

/-- Key lookup in the flattened rates mapping. -/
def lookupNum (m : List (String × JSNumber)) (code : String) : Option JSNumber :=
  (m.find? (fun p => p.1 == code)).map (fun p => p.2)

/-! ### Card details -/

/-- `getCardDetails`: the token-issuance POST (card-application-id header);
if `response.token` is falsy, the local
`Error('Failed to obtain token for card data retrieval')`; otherwise the
card-data GET carrying the token in `headersOptions`. `linksResp` and
`cardResp` are the transport oracles for the two hops. -/
def GateHubClient.getCardDetails {α : Type} (c : GateHubClient) (requestBody : String)
    (linksResp : Except GHError LinksResponse) (cardResp : Except GHError α) :
    List RequestCall × Except GHError α :=
  let url := c.apiUrl ++ "/token/card-data"
  let call1 : RequestCall :=
    ⟨"POST", url, some requestBody, ⟨none, none, some c.env.GATEHUB_CARD_APP_ID⟩⟩
  match linksResp with
  | Except.error e => ([call1], Except.error e)
  | Except.ok r =>
    match optTruthy r.token with
    | none =>
      ([call1], Except.error
        (GHError.protocolInvariant "Failed to obtain token for card data retrieval"))
    | some token =>
      let cardDetailsUrl := c.apiUrl ++ "/v1/proxy/client-device/card-data"
      let call2 : RequestCall := ⟨"GET", cardDetailsUrl, none, ⟨none, some token, none⟩⟩
      match cardResp with
      | Except.error e => ([call1, call2], Except.error e)
      | Except.ok d => ([call1, call2], Except.ok d)

/-- A sample environment used by concrete witnesses and counterexamples. -/
def sampleEnv : Env := ⟨"development", "access-key", "secret-key", "card-app-id"⟩

/-- A sample (sandbox) client used by concrete witnesses and
counterexamples. -/
def sampleClient : GateHubClient := mkGateHubClient sampleEnv

/-! ### Spec-side comparison definitions and helper lemmas -/

/-- The spec's description of the `getRates` result, used as the comparison
definition for the refinement claim C5: an entry exists exactly for the
supported asset codes present in the response with a rate-object value, and
it carries the numeric rate coerced from the provider's string
representation. -/
def ratesSpecEntry (supportedAssetCodes : List String) (resp : RatesResponse)
    (code : String) : Option JSNumber :=
  if code ∈ supportedAssetCodes then
    match lookupRate resp code with
    | some (RateValue.rateObj rate) => some (jsToNumber rate)
    | _ => none
  else none

/-- Truthiness of an optional string matches presence of a nonempty value. -/
lemma exists_truthy_iff (o : Option String) :
    (∃ u, o = some u ∧ u ≠ "") ↔ ∃ u, optTruthy o = some u := by
  cases o with
  | none => simp [optTruthy]
  | some s => by_cases h : s = "" <;> simp [optTruthy, h]

/-! ### Claim theorems -/

/-- C1 (counterexample): the claim says the body segment of the signing
string is omitted exactly when the body is absent, not merely when it is the
empty string. In the code, an empty-string body is falsy, so it is signed
exactly like an absent body: with body `some ""` the signing string is
`timestamp|METHOD|url`, not the four-component join — presence/absence does
not change the signed tuple for an empty body. -/
theorem C1_empty_body_counterexample :
    (some "" : Option String) ≠ none ∧
    toSign "t" "M" "u" (some "") = toSign "t" "M" "u" none ∧
    toSign "t" "M" "u" (some "") ≠ "t" ++ "|" ++ "M" ++ "|" ++ "u" ++ "|" ++ "" := by
  refine ⟨by simp, rfl, by decide⟩

/-- C1 (amended): a request with a nonempty body signs the canonical string
`timestamp|METHOD|url|body`; a request with an absent body, or with an
empty-string body, signs `timestamp|METHOD|url` with no trailing delimiter —
the body segment is omitted exactly when the body is falsy. Moreover the
`body ?? ''` that `request` passes to the header builder never changes the
signature. -/
theorem C1_signing_string_amended (timestamp method url b : String) (hb : b ≠ "") :
    toSign timestamp method url (some b) =
        timestamp ++ "|" ++ method ++ "|" ++ url ++ "|" ++ b ∧
    toSign timestamp method url none = timestamp ++ "|" ++ method ++ "|" ++ url ∧
    toSign timestamp method url (some "") = timestamp ++ "|" ++ method ++ "|" ++ url ∧
    ∀ (c : GateHubClient) (body : Option String),
      c.getSignature timestamp method url (some (body.getD "")) =
        c.getSignature timestamp method url body := by
  refine ⟨?_, rfl, rfl, ?_⟩
  · unfold toSign strTruthy
    rw [if_pos (by simpa using hb)]
    rfl
  · intro c body
    cases body <;> rfl

/-- C1 (witness): the amended statement evaluated at the concrete tuple
`("t", "M", "u", "b")`. -/
theorem C1_signing_string_amended_witness :
    ("b" : String) ≠ "" ∧
    (toSign "t" "M" "u" (some "b") = "t" ++ "|" ++ "M" ++ "|" ++ "u" ++ "|" ++ "b" ∧
     toSign "t" "M" "u" none = "t" ++ "|" ++ "M" ++ "|" ++ "u" ∧
     toSign "t" "M" "u" (some "") = "t" ++ "|" ++ "M" ++ "|" ++ "u" ∧
     ∀ (c : GateHubClient) (body : Option String),
       c.getSignature "t" "M" "u" (some (body.getD "")) =
         c.getSignature "t" "M" "u" body) :=
  ⟨by decide, C1_signing_string_amended "t" "M" "u" "b" (by decide)⟩

/-- C2: `connectUserToGateway` issues the connect POST and then, outside
production (sandbox), exactly one further call — the approve PUT with body
`verified=1`, empty reasons, `customMessage=false` — returning `true`; in
production it issues only the connect POST and returns `false`. -/
theorem C2_connectUserToGateway_env_behavior (c : GateHubClient)
    (managedUserUuid gatewayUuid : String) :
    c.connectUserToGateway managedUserUuid gatewayUuid (Except.ok ()) (Except.ok ()) =
      if c.isProduction then
        ([⟨"POST", c.apiUrl ++ "/id/v1/users/" ++ managedUserUuid ++ "/hubs/" ++ gatewayUuid,
            none, ⟨some managedUserUuid, none, none⟩⟩],
         Except.ok false)
      else
        ([⟨"POST", c.apiUrl ++ "/id/v1/users/" ++ managedUserUuid ++ "/hubs/" ++ gatewayUuid,
            none, ⟨some managedUserUuid, none, none⟩⟩,
          ⟨"PUT", c.apiUrl ++ "/id/v1/hubs/" ++ gatewayUuid ++ "/users/" ++ managedUserUuid,
            some (stringifyApproveRequest ⟨1, [], false⟩), noHeadersOptions⟩],
         Except.ok true) := by
  cases h : c.isProduction <;>
    simp [GateHubClient.connectUserToGateway, GateHubClient.approveUserToGateway, h]

/-- C3: when the token-issuance response of `getCardDetails` carries an
absent or falsy token, the method performs only the first POST — the
card-data GET is never attempted — and fails with the local
ProtocolInvariantError (`Error('Failed to obtain token for card data
retrieval')`), regardless of what the second-hop oracle would have
answered. -/
theorem C3_getCardDetails_missing_token (c : GateHubClient) (requestBody : String)
    (tok : Option String) (cardResp : Except GHError String)
    (hTok : optTruthy tok = none) :
    c.getCardDetails requestBody (Except.ok ⟨tok⟩) cardResp =
      ([⟨"POST", c.apiUrl ++ "/token/card-data", some requestBody,
          ⟨none, none, some c.env.GATEHUB_CARD_APP_ID⟩⟩],
       Except.error
         (GHError.protocolInvariant "Failed to obtain token for card data retrieval")) := by
  simp [GateHubClient.getCardDetails, hTok]

/-- C3 (witness): the theorem at the sample client with the token absent. -/
theorem C3_getCardDetails_missing_token_witness :
    optTruthy none = none ∧
    sampleClient.getCardDetails "rb" (Except.ok ⟨none⟩) (Except.ok "cd") =
      ([⟨"POST", sampleClient.apiUrl ++ "/token/card-data", some "rb",
          ⟨none, none, some sampleClient.env.GATEHUB_CARD_APP_ID⟩⟩],
       Except.error
         (GHError.protocolInvariant "Failed to obtain token for card data retrieval")) :=
  ⟨rfl, C3_getCardDetails_missing_token sampleClient "rb" none (Except.ok "cd") rfl⟩

/-- C4 (counterexample): the claim says the card-data GET authenticated via
the bearer token does not also carry the HMAC signature headers. In the code
`getRequestHeaders` includes the signature header unconditionally, so the
card-data GET (options carrying only the token) gets both the signature
header and `Authorization: Bearer <token>` — the two forms are not mutually
exclusive. -/
theorem C4_bearer_with_signature_counterexample :
    ((sampleClient.getCardDetails "rb" (Except.ok ⟨some "tok"⟩) (Except.ok "cd")).1 =
      [⟨"POST", sampleClient.apiUrl ++ "/token/card-data", some "rb",
          ⟨none, none, some sampleClient.env.GATEHUB_CARD_APP_ID⟩⟩,
       ⟨"GET", sampleClient.apiUrl ++ "/v1/proxy/client-device/card-data", none,
          ⟨none, some "tok", none⟩⟩]) ∧
    (("Authorization", "Bearer " ++ "tok") ∈
       sampleClient.requestHeaders "0" "GET"
         (sampleClient.apiUrl ++ "/v1/proxy/client-device/card-data") none
         ⟨none, some "tok", none⟩) ∧
    (("x-gatehub-signature",
        sampleClient.getSignature "0" "GET"
          (sampleClient.apiUrl ++ "/v1/proxy/client-device/card-data") (some "")) ∈
       sampleClient.requestHeaders "0" "GET"
         (sampleClient.apiUrl ++ "/v1/proxy/client-device/card-data") none
         ⟨none, some "tok", none⟩) := by
  refine ⟨rfl, ?_, ?_⟩ <;>
    simp [GateHubClient.requestHeaders, GateHubClient.getRequestHeaders, optTruthy]

/-- C4 (amended): every call carries the HMAC signature header; the card-data
GET of `getCardDetails` (whose header options carry the obtained token)
carries the `Authorization: Bearer <token>` header in addition to — not
instead of — the signature header. -/
theorem C4_headers_amended (c : GateHubClient) (timestamp method url : String)
    (body : Option String) (opts : HeadersOptions) (requestBody : String)
    (cardResp : Except GHError String) (t : String) (ht : t ≠ "") :
    (("x-gatehub-signature", c.getSignature timestamp method url (some (body.getD ""))) ∈
       c.requestHeaders timestamp method url body opts) ∧
    ((c.getCardDetails requestBody (Except.ok ⟨some t⟩) cardResp).1 =
      [⟨"POST", c.apiUrl ++ "/token/card-data", some requestBody,
          ⟨none, none, some c.env.GATEHUB_CARD_APP_ID⟩⟩,
       ⟨"GET", c.apiUrl ++ "/v1/proxy/client-device/card-data", none,
          ⟨none, some t, none⟩⟩]) ∧
    (("x-gatehub-signature",
        c.getSignature timestamp method url (some ((none : Option String).getD ""))) ∈
       c.requestHeaders timestamp method url none ⟨none, some t, none⟩) ∧
    (("Authorization", "Bearer " ++ t) ∈
       c.requestHeaders timestamp method url none ⟨none, some t, none⟩) := by
  refine ⟨?_, ?_, ?_, ?_⟩
  · rcases hm : optTruthy opts.managedUserUuid with _ | u1 <;>
      rcases hi : optTruthy opts.cardAppId with _ | u2 <;>
        rcases ht2 : optTruthy opts.token with _ | u3 <;>
          simp [GateHubClient.requestHeaders, GateHubClient.getRequestHeaders, hm, hi, ht2]
  · cases cardResp <;> simp [GateHubClient.getCardDetails, optTruthy, ht]
  · simp [GateHubClient.requestHeaders, GateHubClient.getRequestHeaders, optTruthy, ht]
  · simp [GateHubClient.requestHeaders, GateHubClient.getRequestHeaders, optTruthy, ht]

/-- C4 (witness): the amended statement at the sample client and the concrete
token `"tok"`. -/
theorem C4_headers_amended_witness :
    ("tok" : String) ≠ "" ∧
    ((("x-gatehub-signature",
        sampleClient.getSignature "0" "GET" "https://u"
          (some ((none : Option String).getD ""))) ∈
       sampleClient.requestHeaders "0" "GET" "https://u" none noHeadersOptions) ∧
     ((sampleClient.getCardDetails "rb" (Except.ok ⟨some "tok"⟩) (Except.ok "cd")).1 =
       [⟨"POST", sampleClient.apiUrl ++ "/token/card-data", some "rb",
           ⟨none, none, some sampleClient.env.GATEHUB_CARD_APP_ID⟩⟩,
        ⟨"GET", sampleClient.apiUrl ++ "/v1/proxy/client-device/card-data", none,
           ⟨none, some "tok", none⟩⟩]) ∧
     (("x-gatehub-signature",
         sampleClient.getSignature "0" "GET" "https://u"
           (some ((none : Option String).getD ""))) ∈
        sampleClient.requestHeaders "0" "GET" "https://u" none ⟨none, some "tok", none⟩) ∧
     (("Authorization", "Bearer " ++ "tok") ∈
        sampleClient.requestHeaders "0" "GET" "https://u" none ⟨none, some "tok", none⟩)) :=
  ⟨by decide,
   C4_headers_amended sampleClient "0" "GET" "https://u" none noHeadersOptions "rb"
     (Except.ok "cd") "tok" (by decide)⟩

/-- C5: `getRates` returns the flattening of the raw response, and for every
code the flat mapping has an entry exactly when the code is a supported asset
code whose response value is a rate object (absent codes and string sentinels
are skipped), mapped to the numeric rate coerced from the provider's string
representation — the spec-side description `ratesSpecEntry`. -/
theorem C5_getRates_entries (c : GateHubClient) (supportedAssetCodes : List String)
    (base : String) (resp : RatesResponse) (code : String) :
    (c.getRates supportedAssetCodes base (Except.ok resp)).2 =
      Except.ok (getRatesFlatten supportedAssetCodes resp) ∧
    lookupNum (getRatesFlatten supportedAssetCodes resp) code =
      ratesSpecEntry supportedAssetCodes resp code := by
  refine ⟨rfl, ?_⟩
  induction supportedAssetCodes with
  | nil => simp [getRatesFlatten, lookupNum, ratesSpecEntry]
  | cons hd tl ih =>
    by_cases hc : hd = code
    · subst hc
      cases hL : lookupRate resp hd with
      | none =>
        rw [getRatesFlatten, hL, ih]
        simp [ratesSpecEntry, hL, ite_self]
      | some v =>
        cases v with
        | strVal s =>
          rw [getRatesFlatten, hL, ih]
          simp [ratesSpecEntry, hL, ite_self]
        | rateObj r =>
          rw [getRatesFlatten, hL]
          simp [lookupNum, ratesSpecEntry, hL]
    · have hc2 : (hd == code) = false := by simp [hc]
      have hmem : (code ∈ hd :: tl) = (code ∈ tl) := by
        simp [List.mem_cons, Ne.symm hc]
      cases hL : lookupRate resp hd with
      | none =>
        rw [getRatesFlatten, hL, ih]
        simp [ratesSpecEntry, hmem]
      | some v =>
        cases v with
        | strVal s =>
          rw [getRatesFlatten, hL, ih]
          simp [ratesSpecEntry, hmem]
        | rateObj r =>
          rw [getRatesFlatten, hL]
          have hstep : lookupNum ((hd, jsToNumber r) :: getRatesFlatten tl resp) code =
              lookupNum (getRatesFlatten tl resp) code := by
            simp [lookupNum, List.find?_cons, hc2]
          rw [hstep, ih]
          simp [ratesSpecEntry, hmem]

/-- C6: for a kind outside the four recognized iframe kinds, `getIframeUrl`
fails immediately with `BadRequest('Invalid iframe type')` and issues zero
transport calls. -/
theorem C6_getIframeUrl_invalid_kind (c : GateHubClient) (kind managedUserUuid : String)
    (resp : Except GHError TokenResponse)
    (h : kind ∉ ["deposit", "withdrawal", "exchange", "onboarding"]) :
    c.getIframeUrl kind managedUserUuid resp =
      ([], Except.error (GHError.badRequest "Invalid iframe type")) := by
  simp only [List.mem_cons, List.mem_singleton, not_or] at h
  obtain ⟨h1, h2, h3, h4⟩ := h
  simp [GateHubClient.getIframeUrl, h1, h2, h3, h4]

/-- C6 (witness): the theorem at the unrecognized kind `"creditCard"`. -/
theorem C6_getIframeUrl_invalid_kind_witness :
    ("creditCard" : String) ∉ ["deposit", "withdrawal", "exchange", "onboarding"] ∧
    sampleClient.getIframeUrl "creditCard" "uuid" (Except.ok ⟨"tk"⟩) =
      ([], Except.error (GHError.badRequest "Invalid iframe type")) :=
  ⟨by decide, C6_getIframeUrl_invalid_kind sampleClient "creditCard" "uuid"
    (Except.ok ⟨"tk"⟩) (by decide)⟩

/-- C7: each recognized kind selects the documented (client identifier,
scope) pair — deposit/withdrawal the active set's `onOffRamp` id with the
default scope, exchange the `exchange` id with the default scope, onboarding
the `onboarding` id with the distinct onboarding scope — issues exactly the
token-issuance POST (scope as body, managed-user uuid as header option), and
returns the documented URL with the issued token as the `bearer` query
parameter: the ramp host with a `paymentType` parameter for
deposit/withdrawal, the exchange host for exchange, the onboarding host for
onboarding. -/
theorem C7_getIframeUrl_kinds (c : GateHubClient) (managedUserUuid tk : String) :
    (c.getIframeUrl "deposit" managedUserUuid (Except.ok ⟨tk⟩) =
      ([⟨"POST", c.apiUrl ++ "/auth/v1/tokens?clientId=" ++ c.clientIds.onOffRamp,
          some (stringifyTokenRequest DEFAULT_APP_SCOPE), ⟨some managedUserUuid, none, none⟩⟩],
       Except.ok (c.rampUrl ++ "/?paymentType=" ++ PAYMENT_TYPE.deposit ++
         "&bearer=" ++ tk))) ∧
    (c.getIframeUrl "withdrawal" managedUserUuid (Except.ok ⟨tk⟩) =
      ([⟨"POST", c.apiUrl ++ "/auth/v1/tokens?clientId=" ++ c.clientIds.onOffRamp,
          some (stringifyTokenRequest DEFAULT_APP_SCOPE), ⟨some managedUserUuid, none, none⟩⟩],
       Except.ok (c.rampUrl ++ "/?paymentType=" ++ PAYMENT_TYPE.withdrawal ++
         "&bearer=" ++ tk))) ∧
    (c.getIframeUrl "exchange" managedUserUuid (Except.ok ⟨tk⟩) =
      ([⟨"POST", c.apiUrl ++ "/auth/v1/tokens?clientId=" ++ c.clientIds.exchange,
          some (stringifyTokenRequest DEFAULT_APP_SCOPE), ⟨some managedUserUuid, none, none⟩⟩],
       Except.ok (c.exchangeUrl ++ "/?bearer=" ++ tk))) ∧
    (c.getIframeUrl "onboarding" managedUserUuid (Except.ok ⟨tk⟩) =
      ([⟨"POST", c.apiUrl ++ "/auth/v1/tokens?clientId=" ++ c.clientIds.onboarding,
          some (stringifyTokenRequest ONBOARDING_APP_SCOPE),
          ⟨some managedUserUuid, none, none⟩⟩],
       Except.ok (c.onboardingUrl ++ "/?bearer=" ++ tk))) :=
  ⟨rfl, rfl, rfl, rfl⟩

/-- C8 (counterexample): the claim says each optional header is included if
and only if the corresponding optional value is supplied by the caller. With
the empty-string managed-user uuid supplied, the value is supplied yet falsy,
so the header is omitted — the inclusion condition is truthiness, not
presence. -/
theorem C8_empty_value_counterexample :
    ((⟨some "", none, none⟩ : HeadersOptions).managedUserUuid = some "") ∧
    "x-gatehub-managed-user-uuid" ∉
      (sampleClient.getRequestHeaders "0" "GET" "https://u" (some "")
        ⟨some "", none, none⟩).map Prod.fst := by
  refine ⟨rfl, ?_⟩
  simp [GateHubClient.getRequestHeaders, optTruthy]

/-- C8 (amended): the assembled header set always contains the content-type,
application-identifier, timestamp, and signature headers, and each of the
managed-user-uuid, card-application-id, and Authorization bearer headers is
present if and only if the corresponding optional value is supplied and
nonempty; the conditions are independent, so any subset of the three may be
present together. -/
theorem C8_headers_amended (c : GateHubClient) (timestamp method url : String)
    (body : Option String) (opts : HeadersOptions) :
    (("Content-Type", "application/json") ∈
       c.getRequestHeaders timestamp method url body opts) ∧
    (("x-gatehub-app-id", c.env.GATEHUB_ACCESS_KEY) ∈
       c.getRequestHeaders timestamp method url body opts) ∧
    (("x-gatehub-timestamp", timestamp) ∈
       c.getRequestHeaders timestamp method url body opts) ∧
    (("x-gatehub-signature", c.getSignature timestamp method url body) ∈
       c.getRequestHeaders timestamp method url body opts) ∧
    ((∃ u, ("x-gatehub-managed-user-uuid", u) ∈
        c.getRequestHeaders timestamp method url body opts) ↔
      (∃ u, opts.managedUserUuid = some u ∧ u ≠ "")) ∧
    ((∃ i, ("x-gatehub-card-app-id", i) ∈
        c.getRequestHeaders timestamp method url body opts) ↔
      (∃ i, opts.cardAppId = some i ∧ i ≠ "")) ∧
    ((∃ t, ("Authorization", t) ∈
        c.getRequestHeaders timestamp method url body opts) ↔
      (∃ t, opts.token = some t ∧ t ≠ "")) := by
  rcases hm : optTruthy opts.managedUserUuid with _ | u1 <;>
    rcases hi : optTruthy opts.cardAppId with _ | u2 <;>
      rcases ht : optTruthy opts.token with _ | u3 <;>
        simp [GateHubClient.getRequestHeaders, hm, hi, ht, exists_truthy_iff]

/-- C8 (witness): the amended statement at the sample client with the
managed-user uuid `"mu"` supplied. -/
theorem C8_headers_amended_witness :
    (("Content-Type", "application/json") ∈
       sampleClient.getRequestHeaders "0" "GET" "https://u" none ⟨some "mu", none, none⟩) ∧
    (("x-gatehub-app-id", sampleClient.env.GATEHUB_ACCESS_KEY) ∈
       sampleClient.getRequestHeaders "0" "GET" "https://u" none ⟨some "mu", none, none⟩) ∧
    (("x-gatehub-timestamp", "0") ∈
       sampleClient.getRequestHeaders "0" "GET" "https://u" none ⟨some "mu", none, none⟩) ∧
    (("x-gatehub-signature", sampleClient.getSignature "0" "GET" "https://u" none) ∈
       sampleClient.getRequestHeaders "0" "GET" "https://u" none ⟨some "mu", none, none⟩) ∧
    ((∃ u, ("x-gatehub-managed-user-uuid", u) ∈
        sampleClient.getRequestHeaders "0" "GET" "https://u" none ⟨some "mu", none, none⟩) ↔
      (∃ u, (⟨some "mu", none, none⟩ : HeadersOptions).managedUserUuid = some u ∧ u ≠ "")) ∧
    ((∃ i, ("x-gatehub-card-app-id", i) ∈
        sampleClient.getRequestHeaders "0" "GET" "https://u" none ⟨some "mu", none, none⟩) ↔
      (∃ i, (⟨some "mu", none, none⟩ : HeadersOptions).cardAppId = some i ∧ i ≠ "")) ∧
    ((∃ t, ("Authorization", t) ∈
        sampleClient.getRequestHeaders "0" "GET" "https://u" none ⟨some "mu", none, none⟩) ↔
      (∃ t, (⟨some "mu", none, none⟩ : HeadersOptions).token = some t ∧ t ≠ "")) :=
  C8_headers_amended sampleClient "0" "GET" "https://u" none ⟨some "mu", none, none⟩

/-- C9 (counterexample): the claim says any two distinct input tuples produce
distinct signatures. The tuples with body `some ""` and body `none` are
distinct yet sign identically, because an empty-string body is falsy and the
signing string omits it. -/
theorem C9_collision_counterexample :
    ((some "" : Option String) ≠ none) ∧
    sampleClient.getSignature "t" "GET" "u" (some "") =
      sampleClient.getSignature "t" "GET" "u" none :=
  ⟨by simp, rfl⟩

/-- C9 (amended): for a fixed secret key the signature is a deterministic
function of the inputs that factors through the canonical signing string —
any two input tuples with equal signing strings (such as an absent and an
empty body, or components embedding the delimiter) receive identical
signatures; injectivity over distinct tuples does not hold. -/
theorem C9_signature_determined_by_signing_string (c : GateHubClient)
    (t1 m1 u1 : String) (b1 : Option String) (t2 m2 u2 : String) (b2 : Option String)
    (h : toSign t1 m1 u1 b1 = toSign t2 m2 u2 b2) :
    c.getSignature t1 m1 u1 b1 = c.getSignature t2 m2 u2 b2 := by
  unfold GateHubClient.getSignature
  rw [h]

/-- C9 (witness): the amended statement applied to the concrete colliding
tuples. -/
theorem C9_signature_determined_by_signing_string_witness :
    toSign "t" "GET" "u" (some "") = toSign "t" "GET" "u" none ∧
    sampleClient.getSignature "t" "GET" "u" (some "") =
      sampleClient.getSignature "t" "GET" "u" none :=
  ⟨rfl, C9_signature_determined_by_signing_string sampleClient "t" "GET" "u" (some "")
    "t" "GET" "u" none rfl⟩

/-- C10: every key of the flattened rates mapping is one of the supported
asset codes, whatever extra codes the raw response contains. -/
theorem C10_keys_supported (supportedAssetCodes : List String) (resp : RatesResponse)
    (p : String × JSNumber) (hp : p ∈ getRatesFlatten supportedAssetCodes resp) :
    p.1 ∈ supportedAssetCodes := by
  induction supportedAssetCodes with
  | nil => simp [getRatesFlatten] at hp
  | cons hd tl ih =>
    cases hL : lookupRate resp hd with
    | none =>
      rw [getRatesFlatten, hL] at hp
      exact List.mem_cons_of_mem _ (ih hp)
    | some v =>
      cases v with
      | strVal s =>
        rw [getRatesFlatten, hL] at hp
        exact List.mem_cons_of_mem _ (ih hp)
      | rateObj r =>
        rw [getRatesFlatten, hL] at hp
        rcases List.mem_cons.mp hp with h | h
        · rw [h]
          exact List.mem_cons_self _ _
        · exact List.mem_cons_of_mem _ (ih h)

/-- C10 (witness): the theorem at a concrete response whose only supported
entry is a rate object. -/
theorem C10_keys_supported_witness :
    (("USD", jsToNumber "2") ∈
      getRatesFlatten ["USD"] [("USD", RateValue.rateObj "2")]) ∧
    ("USD" : String) ∈ ["USD"] :=
  have hp : ("USD", jsToNumber "2") ∈
      getRatesFlatten ["USD"] [("USD", RateValue.rateObj "2")] := by
    have h : getRatesFlatten ["USD"] [("USD", RateValue.rateObj "2")] =
        [("USD", jsToNumber "2")] := rfl
    rw [h]
    exact List.mem_singleton.mpr rfl
  ⟨hp, C10_keys_supported ["USD"] [("USD", RateValue.rateObj "2")]
    ("USD", jsToNumber "2") hp⟩

end GateHub
